import Mathlib

/-!
# Verification of the voxelize application core (src/app.js)

Shallow embedding of the voxelization pipeline of `src/app.js`:
the dimension calculator (`getDimensions`), the coordinate mapper
(`calculateCoordinates`), the occupancy sampler
(`doesVoxelIntersectObject`), the grid builder (`calculateGrid`), the
voxel renderer (`drawGrid`) and the driver (`voxelize`).

JavaScript numbers are modelled by `ℚ`.  The three.js scene-graph and
ray-casting services are external collaborators: an object is modelled
by its ray-intersection query, a function from a ray (origin,
direction) to the ordered list of hit distances, and by its
bounding-box size vector.
-/

namespace Voxelize

/-- A three-component vector, modelling `THREE.Vector3`. -/
structure Vector3 where
  x : ℚ
  y : ℚ
  z : ℚ
deriving DecidableEq, Repr

/-- The ray-intersection query of the loaded object: given a ray origin
and direction, returns the distances of the surface hits in the order
three.js reports them (nearest first).  This models
`raycaster.intersectObject(currentObject, true)`, keeping only the
`distance` field of each intersection record. -/
def RayQuery : Type := Vector3 → Vector3 → List ℚ

/-- The vector `new THREE.Vector3(1, 0, 0)` in `doesVoxelIntersectObject`. -/
def xVector : Vector3 := ⟨1, 0, 0⟩

/-- The vector `new THREE.Vector3(0, 1, 0)` in `doesVoxelIntersectObject`. -/
def yVector : Vector3 := ⟨0, 1, 0⟩

/-- The vector `new THREE.Vector3(0, 0, 1)` in `doesVoxelIntersectObject`. -/
def zVector : Vector3 := ⟨0, 0, 1⟩

/-- The `leftFaceCorners` array of `doesVoxelIntersectObject`:
the four corners of the cube face on the `x - size/2` plane. -/
def leftFaceCorners (x y z halfSize : ℚ) : List Vector3 :=
  [⟨x - halfSize, y - halfSize, z - halfSize⟩,
   ⟨x - halfSize, y - halfSize, z + halfSize⟩,
   ⟨x - halfSize, y + halfSize, z - halfSize⟩,
   ⟨x - halfSize, y + halfSize, z + halfSize⟩]

/-- The `bottomFaceCorners` array of `doesVoxelIntersectObject`:
the four corners of the cube face on the `y - size/2` plane. -/
def bottomFaceCorners (x y z halfSize : ℚ) : List Vector3 :=
  [⟨x - halfSize, y - halfSize, z - halfSize⟩,
   ⟨x + halfSize, y - halfSize, z - halfSize⟩,
   ⟨x - halfSize, y - halfSize, z + halfSize⟩,
   ⟨x + halfSize, y - halfSize, z + halfSize⟩]

/-- The `backFaceCorners` array of `doesVoxelIntersectObject`:
the four corners of the cube face on the `z - size/2` plane. -/
def backFaceCorners (x y z halfSize : ℚ) : List Vector3 :=
  [⟨x - halfSize, y - halfSize, z - halfSize⟩,
   ⟨x + halfSize, y - halfSize, z - halfSize⟩,
   ⟨x - halfSize, y + halfSize, z - halfSize⟩,
   ⟨x + halfSize, y + halfSize, z - halfSize⟩]

/-- One loop body of `doesVoxelIntersectObject`: cast a ray from
`corner` in direction `dir` and test
`intersects.length > 0 && intersects[0].distance <= size`. -/
def firstHitWithin (raycast : RayQuery) (dir : Vector3) (size : ℚ)
    (corner : Vector3) : Bool :=
  match raycast corner dir with
  | [] => false
  | d :: _ => decide (d ≤ size)

/-- The occupancy sampler `doesVoxelIntersectObject(x, y, z, size)`:
returns `true` as soon as one of the twelve corner rays (four per
probed face, cast along that face's inward axis) reports a first hit
at distance `≤ size`. -/
def doesVoxelIntersectObject (raycast : RayQuery) (x y z size : ℚ) : Bool :=
  let halfSize := size / 2
  (leftFaceCorners x y z halfSize).any (firstHitWithin raycast xVector size) ||
  (bottomFaceCorners x y z halfSize).any (firstHitWithin raycast yVector size) ||
  (backFaceCorners x y z halfSize).any (firstHitWithin raycast zVector size)

/-- The coordinate mapper `calculateCoordinates(index, gridSize)`.
The global `voxelsPerUnit` is passed explicitly. -/
def calculateCoordinates (voxelsPerUnit index gridSize : ℚ) : ℚ :=
  let voxelSize := 1 / voxelsPerUnit
  let halfGridSize := gridSize / 2
  let halfVoxelSize := voxelSize / 2
  (index - halfGridSize) * voxelSize + halfVoxelSize

/-- The formula of the specification, stated verbatim:
`coord = (index - gridSize/2) * voxelSize + voxelSize/2` with
`voxelSize = 1/density`.  Used only to compare with
`calculateCoordinates`. -/
def coordinateSpec (density index gridSize : ℚ) : ℚ :=
  (index - gridSize / 2) * (1 / density) + (1 / density) / 2

/-- One cell of the occupancy grid, the object literal
`{value, x, y, z}` built by `calculateGrid`. -/
structure Cell where
  value : Bool
  x : ℚ
  y : ℚ
  z : ℚ
deriving DecidableEq, Repr

/-- Placeholder cell for out-of-range reads (never reached when the
grid and the loop bounds agree, as in `voxelize`). -/
def defaultCell : Cell := ⟨false, 0, 0, 0⟩

/-- Number of iterations of a JavaScript loop
`for (let i = 0; i <= bound; i++)` over integers with a rational
`bound`: `⌊bound⌋ + 1` when `bound ≥ 0`, `0` otherwise. -/
def loopCount (bound : ℚ) : ℕ := (⌊bound⌋ + 1).toNat

/-- The grid builder `calculateGrid(sizeX, sizeY, sizeZ)`: nested
arrays indexed by `i`, `j`, `k`, each entry holding the occupancy
sample and the world coordinates of the cell.  The loop bounds are
inclusive, and the cell size passed to the sampler is
`1/voxelsPerUnit`. -/
def calculateGrid (raycast : RayQuery) (voxelsPerUnit sizeX sizeY sizeZ : ℚ) :
    List (List (List Cell)) :=
  (List.range (loopCount sizeX)).map (fun i : ℕ =>
    (List.range (loopCount sizeY)).map (fun j : ℕ =>
      (List.range (loopCount sizeZ)).map (fun k : ℕ =>
        let x := calculateCoordinates voxelsPerUnit (i : ℚ) sizeX
        let y := calculateCoordinates voxelsPerUnit (j : ℚ) sizeY
        let z := calculateCoordinates voxelsPerUnit (k : ℚ) sizeZ
        { value := doesVoxelIntersectObject raycast x y z (1 / voxelsPerUnit),
          x := x, y := y, z := z })))

/-- Total number of cells stored in a nested grid. -/
def totalCells (grid : List (List (List Cell))) : ℕ :=
  (grid.map (fun row => (row.map List.length).sum)).sum

end Voxelize

namespace Voxelize

/-- The dimensions record returned by `getDimensions`. -/
structure Dimensions where
  x : ℤ
  y : ℤ
  z : ℤ
deriving DecidableEq, Repr

/-- The dimension calculator `getDimensions(object)`: the per-axis
size of the object's axis-aligned bounding box (an external query,
passed here as `boundingBoxSize`), each component rounded up with
`Math.ceil`. -/
def getDimensions (boundingBoxSize : Vector3) : Dimensions :=
  ⟨⌈boundingBoxSize.x⌉, ⌈boundingBoxSize.y⌉, ⌈boundingBoxSize.z⌉⟩

/-- One voxel mesh added to the scene by `drawGrid`: a cube of edge
`1/voxelsPerUnit` positioned at the cell's stored coordinates, using
the shared material (materials are identified by a tag). -/
structure Voxel where
  edge : ℚ
  x : ℚ
  y : ℚ
  z : ℚ
  material : ℕ
deriving DecidableEq, Repr

/-- The voxel renderer `drawGrid(sizeX, sizeY, sizeZ, grid, material)`:
for every index triple within the inclusive bounds, if the stored cell
is occupied, create one cube mesh of edge `1/voxelsPerUnit` with the
given material and place it at the cell's coordinates. -/
def drawGrid (voxelsPerUnit sizeX sizeY sizeZ : ℚ)
    (grid : List (List (List Cell))) (material : ℕ) : List Voxel :=
  (List.range (loopCount sizeX)).flatMap (fun i =>
    (List.range (loopCount sizeY)).flatMap (fun j =>
      (List.range (loopCount sizeZ)).flatMap (fun k =>
        let c := ((grid.getD i []).getD j []).getD k defaultCell
        if c.value then
          [{ edge := 1 / voxelsPerUnit, x := c.x, y := c.y, z := c.z,
             material := material }]
        else [])))

/-- The driver `voxelize()`: compute the dimensions from the bounding
box, scale them by the density to the grid extents, build the grid,
capture the object's material, remove the object, then draw.  The
function performs no validation of the density or of the bounding box
and has no error outcome; it returns the list of voxel meshes added to
the scene. -/
def voxelize (raycast : RayQuery) (voxelsPerUnit : ℚ)
    (boundingBoxSize : Vector3) (objectMaterial : ℕ) : List Voxel :=
  let dimensions := getDimensions boundingBoxSize
  let sizeX : ℚ := dimensions.x * voxelsPerUnit
  let sizeY : ℚ := dimensions.y * voxelsPerUnit
  let sizeZ : ℚ := dimensions.z * voxelsPerUnit
  let grid := calculateGrid raycast voxelsPerUnit sizeX sizeY sizeZ
  let material := objectMaterial
  drawGrid voxelsPerUnit sizeX sizeY sizeZ grid material

/-- The setter `changeVoxelsPerUnit(size)`: stores the new density unchecked. -/
def changeVoxelsPerUnit (size : ℚ) : ℚ := size

end Voxelize

namespace Voxelize

/-- A ray query with no geometry: every ray misses. -/
def emptyQuery : RayQuery := fun _ _ => []

/-- A ray query whose every ray reports a single hit at distance 1. -/
def unitHitQuery : RayQuery := fun _ _ => [1]

end Voxelize

namespace Voxelize

/-- Claim C3: For every index and grid size, with `voxelSize = 1/density`,
the coordinate mapper returns exactly
`(index - gridSize/2) * voxelSize + voxelSize/2`; it is a pure function
of `(density, index, gridSize)`. -/
theorem calculateCoordinates_eq_spec (density index gridSize : ℚ) :
    calculateCoordinates density index gridSize =
      coordinateSpec density index gridSize := rfl

/-- Claim C4: For a fixed grid size and positive density the coordinate
mapper is evenly spaced with step `1/density`, strictly increasing in
the index, and injective in the index. -/
theorem calculateCoordinates_spacing_strictMono (density gridSize : ℚ)
    (hd : 0 < density) :
    (∀ i : ℚ, calculateCoordinates density (i + 1) gridSize -
        calculateCoordinates density i gridSize = 1 / density) ∧
    (∀ i j : ℚ, i < j → calculateCoordinates density i gridSize <
        calculateCoordinates density j gridSize) ∧
    (∀ i j : ℚ, calculateCoordinates density i gridSize =
        calculateCoordinates density j gridSize → i = j) := by
  have hne : density ≠ 0 := ne_of_gt hd
  refine ⟨?_, ?_, ?_⟩
  · intro i
    unfold calculateCoordinates
    field_simp
    ring
  · intro i j hij
    unfold calculateCoordinates
    have hv : 0 < 1 / density := by positivity
    have := mul_lt_mul_of_pos_right (sub_lt_sub_right hij (gridSize / 2)) hv
    linarith
  · intro i j h
    unfold calculateCoordinates at h
    have hv : (1 : ℚ) / density ≠ 0 := by positivity
    have := mul_right_cancel₀ hv (by linarith : (i - gridSize / 2) * (1 / density) = (j - gridSize / 2) * (1 / density))
    linarith

/-- Witness for C4 at density 6. -/
theorem calculateCoordinates_spacing_strictMono_witness :
    (∀ i : ℚ, calculateCoordinates 6 (i + 1) 5 -
        calculateCoordinates 6 i 5 = 1 / 6) ∧
    (∀ i j : ℚ, i < j → calculateCoordinates 6 i 5 <
        calculateCoordinates 6 j 5) ∧
    (∀ i j : ℚ, calculateCoordinates 6 i 5 =
        calculateCoordinates 6 j 5 → i = j) :=
  calculateCoordinates_spacing_strictMono 6 5 (by norm_num)

/-- Claim C10: For every grid size `g`, index `i` and positive density
`d`, `coord(i, g) + coord(g - i, g) = 1/d`; hence the list of cell
centers for the index range `0..g` is symmetric about `1/(2d)`: the
reflection `1/d - c` of any center `c` is again a center. -/
theorem calculateCoordinates_symmetry (d : ℚ) (hd : 0 < d) :
    (∀ i g : ℚ, calculateCoordinates d i g +
        calculateCoordinates d (g - i) g = 1 / d) ∧
    (∀ g : ℕ, ∀ c ∈ (List.range (g + 1)).map
        (fun i : ℕ => calculateCoordinates d i g),
      (1 / d - c) ∈ (List.range (g + 1)).map
        (fun i : ℕ => calculateCoordinates d i g)) := by
  have hne : d ≠ 0 := ne_of_gt hd
  have key : ∀ i g : ℚ, calculateCoordinates d i g +
      calculateCoordinates d (g - i) g = 1 / d := by
    intro i g
    unfold calculateCoordinates
    field_simp
    ring
  refine ⟨key, ?_⟩
  intro g c hc
  simp only [List.mem_map, List.mem_range] at hc ⊢
  obtain ⟨i, hi, rfl⟩ := hc
  refine ⟨g - i, by omega, ?_⟩
  have hcast : ((g - i : ℕ) : ℚ) = (g : ℚ) - (i : ℚ) := by
    push_cast [Nat.cast_sub (by omega : i ≤ g)]
    ring
  rw [hcast]
  have := key (i : ℚ) (g : ℚ)
  linarith

/-- The ceiling of a rational agrees with the value on integers, is
`⌊q⌋ + 1` on non-integers, and always dominates the value. -/
lemma ceil_value_spec (q : ℚ) :
    ((∃ n : ℤ, (n : ℚ) = q) → ((⌈q⌉ : ℚ) = q)) ∧
    ((¬∃ n : ℤ, (n : ℚ) = q) → ⌈q⌉ = ⌊q⌋ + 1) ∧
    q ≤ (⌈q⌉ : ℚ) := by
  refine ⟨?_, ?_, Int.le_ceil q⟩
  · rintro ⟨n, rfl⟩
    simp
  · intro hq
    have hfl : (⌊q⌋ : ℚ) ≠ q := fun h => hq ⟨⌊q⌋, h⟩
    have h1 : (⌊q⌋ : ℚ) < q := lt_of_le_of_ne (Int.floor_le q) hfl
    rw [Int.ceil_eq_iff]
    constructor
    · push_cast
      linarith
    · push_cast
      have := Int.lt_floor_add_one q
      linarith

/-- Claim C5: The dimension calculator returns per axis the ceiling of
the bounding-box size: equal to the size when it is an integer,
`⌊size⌋ + 1` when it is not, and always at least the true extent. -/
theorem getDimensions_ceiling (b : Vector3) :
    (((∃ n : ℤ, (n : ℚ) = b.x) → (((getDimensions b).x : ℚ) = b.x)) ∧
     ((¬∃ n : ℤ, (n : ℚ) = b.x) → (getDimensions b).x = ⌊b.x⌋ + 1) ∧
     b.x ≤ ((getDimensions b).x : ℚ)) ∧
    (((∃ n : ℤ, (n : ℚ) = b.y) → (((getDimensions b).y : ℚ) = b.y)) ∧
     ((¬∃ n : ℤ, (n : ℚ) = b.y) → (getDimensions b).y = ⌊b.y⌋ + 1) ∧
     b.y ≤ ((getDimensions b).y : ℚ)) ∧
    (((∃ n : ℤ, (n : ℚ) = b.z) → (((getDimensions b).z : ℚ) = b.z)) ∧
     ((¬∃ n : ℤ, (n : ℚ) = b.z) → (getDimensions b).z = ⌊b.z⌋ + 1) ∧
     b.z ≤ ((getDimensions b).z : ℚ)) :=
  ⟨ceil_value_spec b.x, ceil_value_spec b.y, ceil_value_spec b.z⟩

/-- Witness for C5 at the box size `(3/2, 2, 0)`. -/
theorem getDimensions_ceiling_witness :
    (((∃ n : ℤ, (n : ℚ) = (3/2 : ℚ)) →
        (((getDimensions ⟨3/2, 2, 0⟩).x : ℚ) = (3/2 : ℚ))) ∧
     ((¬∃ n : ℤ, (n : ℚ) = (3/2 : ℚ)) →
        (getDimensions ⟨3/2, 2, 0⟩).x = ⌊(3/2 : ℚ)⌋ + 1) ∧
     (3/2 : ℚ) ≤ ((getDimensions ⟨3/2, 2, 0⟩).x : ℚ)) ∧
    (((∃ n : ℤ, (n : ℚ) = (2 : ℚ)) →
        (((getDimensions ⟨3/2, 2, 0⟩).y : ℚ) = (2 : ℚ))) ∧
     ((¬∃ n : ℤ, (n : ℚ) = (2 : ℚ)) →
        (getDimensions ⟨3/2, 2, 0⟩).y = ⌊(2 : ℚ)⌋ + 1) ∧
     (2 : ℚ) ≤ ((getDimensions ⟨3/2, 2, 0⟩).y : ℚ)) ∧
    (((∃ n : ℤ, (n : ℚ) = (0 : ℚ)) →
        (((getDimensions ⟨3/2, 2, 0⟩).z : ℚ) = (0 : ℚ))) ∧
     ((¬∃ n : ℤ, (n : ℚ) = (0 : ℚ)) →
        (getDimensions ⟨3/2, 2, 0⟩).z = ⌊(0 : ℚ)⌋ + 1) ∧
     (0 : ℚ) ≤ ((getDimensions ⟨3/2, 2, 0⟩).z : ℚ)) :=
  getDimensions_ceiling ⟨3/2, 2, 0⟩

/-- Witness for C10 at density 6. -/
theorem calculateCoordinates_symmetry_witness :
    (∀ i g : ℚ, calculateCoordinates 6 i g +
        calculateCoordinates 6 (g - i) g = 1 / 6) ∧
    (∀ g : ℕ, ∀ c ∈ (List.range (g + 1)).map
        (fun i : ℕ => calculateCoordinates 6 i g),
      (1 / 6 - c) ∈ (List.range (g + 1)).map
        (fun i : ℕ => calculateCoordinates 6 i g)) :=
  calculateCoordinates_symmetry 6 (by norm_num)

/-- The twelve probe rays of the claim: the four corners of the left
face paired with the `+X` direction, the four corners of the bottom
face with `+Y`, and the four corners of the back face with `+Z`. -/
def twelveRays (x y z size : ℚ) : List (Vector3 × Vector3) :=
  (leftFaceCorners x y z (size / 2)).map (fun c => (c, xVector)) ++
  (bottomFaceCorners x y z (size / 2)).map (fun c => (c, yVector)) ++
  (backFaceCorners x y z (size / 2)).map (fun c => (c, zVector))

/-- When the hit list of a ray is sorted nearest-first, the code's
first-hit test is equivalent to the existence of any hit within
`size`. -/
lemma firstHitWithin_iff (raycast : RayQuery) (dir : Vector3) (size : ℚ)
    (corner : Vector3)
    (hs : List.Sorted (· ≤ ·) (raycast corner dir)) :
    firstHitWithin raycast dir size corner = true ↔
      ∃ d ∈ raycast corner dir, d ≤ size := by
  unfold firstHitWithin
  rcases h : raycast corner dir with _ | ⟨a, l⟩
  · simp
  · rw [h] at hs
    rw [List.sorted_cons] at hs
    simp only [decide_eq_true_eq, List.mem_cons]
    constructor
    · intro ha
      exact ⟨a, Or.inl rfl, ha⟩
    · rintro ⟨d, hd | hd, hds⟩
      · exact hd ▸ hds
      · exact le_trans (hs.1 d hd) hds

/-- Claim C1: When every ray query returns its hits sorted by distance
(nearest first, as three.js does), the occupancy sampler returns
`true` if and only if at least one of the twelve corner rays hits the
surface at a distance `≤ size`. -/
theorem doesVoxelIntersectObject_iff (raycast : RayQuery)
    (hs : ∀ o d, List.Sorted (· ≤ ·) (raycast o d)) (x y z size : ℚ) :
    doesVoxelIntersectObject raycast x y z size = true ↔
      ∃ p ∈ twelveRays x y z size, ∃ dist ∈ raycast p.1 p.2,
        dist ≤ size := by
  have h1 : ∀ (dir : Vector3) (corners : List Vector3),
      corners.any (firstHitWithin raycast dir size) = true ↔
        ∃ c ∈ corners, ∃ d ∈ raycast c dir, d ≤ size := by
    intro dir corners
    rw [List.any_eq_true]
    exact exists_congr fun c => and_congr_right fun _ =>
      firstHitWithin_iff raycast dir size c (hs c dir)
  unfold doesVoxelIntersectObject
  simp only [Bool.or_eq_true, h1]
  unfold twelveRays
  constructor
  · rintro ((⟨c, hc, hd⟩ | ⟨c, hc, hd⟩) | ⟨c, hc, hd⟩)
    · exact ⟨(c, xVector), List.mem_append_left _
        (List.mem_append_left _ (List.mem_map_of_mem _ hc)), hd⟩
    · exact ⟨(c, yVector), List.mem_append_left _
        (List.mem_append_right _ (List.mem_map_of_mem _ hc)), hd⟩
    · exact ⟨(c, zVector), List.mem_append_right _
        (List.mem_map_of_mem _ hc), hd⟩
  · rintro ⟨p, hp, hd⟩
    simp only [List.mem_append, List.mem_map] at hp
    rcases hp with (⟨c, hc, rfl⟩ | ⟨c, hc, rfl⟩) | ⟨c, hc, rfl⟩
    · exact Or.inl (Or.inl ⟨c, hc, hd⟩)
    · exact Or.inl (Or.inr ⟨c, hc, hd⟩)
    · exact Or.inr ⟨c, hc, hd⟩

/-- A loop `for (let i = 0; i <= n; i++)` over a natural bound runs
`n + 1` times. -/
lemma loopCount_natCast (n : ℕ) : loopCount (n : ℚ) = n + 1 := by
  unfold loopCount
  rw [Int.floor_natCast]
  omega

/-- Indexing a mapped range within bounds returns the mapped value. -/
lemma getD_map_range {α : Type} (n i : ℕ) (f : ℕ → α) (d : α)
    (h : i < n) : ((List.range n).map f).getD i d = f i := by
  rw [List.getD_eq_getElem?_getD, List.getElem?_map, List.getElem?_range h]
  rfl

/-- Summing a constant over a range multiplies it by the length. -/
lemma sum_map_range_const (n c : ℕ) :
    ((List.range n).map (fun _ => c)).sum = n * c := by
  induction n with
  | zero => simp
  | succ m ih =>
    rw [List.range_succ]
    simp [ih]
    ring

/-- Claim C2: For non-negative integer extents the grid builder produces
a dense nested structure with `size + 1` entries per axis, hence
exactly `(sizeX+1)*(sizeY+1)*(sizeZ+1)` cells in total, one cell per
index triple; the cell at `(i, j, k)` carries the coordinates given by
the coordinate mapper on each axis independently and the occupancy
sample at those coordinates with cell size `1/voxelsPerUnit`. -/
theorem calculateGrid_cells (raycast : RayQuery) (vpu : ℚ)
    (sizeX sizeY sizeZ i j k : ℕ)
    (hi : i ≤ sizeX) (hj : j ≤ sizeY) (hk : k ≤ sizeZ) :
    (calculateGrid raycast vpu sizeX sizeY sizeZ).length = sizeX + 1 ∧
    (∀ row ∈ calculateGrid raycast vpu sizeX sizeY sizeZ,
        row.length = sizeY + 1 ∧ ∀ col ∈ row, col.length = sizeZ + 1) ∧
    totalCells (calculateGrid raycast vpu sizeX sizeY sizeZ) =
      (sizeX + 1) * (sizeY + 1) * (sizeZ + 1) ∧
    ((((calculateGrid raycast vpu sizeX sizeY sizeZ).getD i []).getD j
        []).getD k defaultCell) =
      { value := doesVoxelIntersectObject raycast
          (calculateCoordinates vpu i sizeX)
          (calculateCoordinates vpu j sizeY)
          (calculateCoordinates vpu k sizeZ) (1 / vpu),
        x := calculateCoordinates vpu i sizeX,
        y := calculateCoordinates vpu j sizeY,
        z := calculateCoordinates vpu k sizeZ } := by
  have hi' : i < sizeX + 1 := by omega
  have hj' : j < sizeY + 1 := by omega
  have hk' : k < sizeZ + 1 := by omega
  refine ⟨?_, ?_, ?_, ?_⟩
  · simp [calculateGrid, loopCount_natCast]
  · intro row hrow
    simp only [calculateGrid, loopCount_natCast, List.mem_map,
      List.mem_range] at hrow
    obtain ⟨a, _, rfl⟩ := hrow
    refine ⟨by simp, ?_⟩
    intro col hcol
    simp only [List.mem_map, List.mem_range] at hcol
    obtain ⟨b, _, rfl⟩ := hcol
    simp
  · unfold totalCells calculateGrid
    simp only [loopCount_natCast, List.map_map, Function.comp_def,
      List.length_map, List.length_range, sum_map_range_const]
    ring
  · unfold calculateGrid
    simp only [loopCount_natCast]
    rw [getD_map_range _ _ _ _ hi']
    rw [getD_map_range _ _ _ _ hj']
    rw [getD_map_range _ _ _ _ hk']

/-- Witness for C2 at extents `(1, 1, 1)`, index `(0, 0, 0)`, density
6, with the empty-scene query. -/
theorem calculateGrid_cells_witness :
    (calculateGrid emptyQuery 6 1 1 1).length = 1 + 1 ∧
    (∀ row ∈ calculateGrid emptyQuery 6 1 1 1,
        row.length = 1 + 1 ∧ ∀ col ∈ row, col.length = 1 + 1) ∧
    totalCells (calculateGrid emptyQuery 6 1 1 1) =
      (1 + 1) * (1 + 1) * (1 + 1) ∧
    ((((calculateGrid emptyQuery 6 1 1 1).getD 0 []).getD 0 []).getD 0
        defaultCell) =
      { value := doesVoxelIntersectObject emptyQuery
          (calculateCoordinates 6 0 1)
          (calculateCoordinates 6 0 1)
          (calculateCoordinates 6 0 1) (1 / 6),
        x := calculateCoordinates 6 0 1,
        y := calculateCoordinates 6 0 1,
        z := calculateCoordinates 6 0 1 } :=
  calculateGrid_cells emptyQuery 6 1 1 1 0 0 0 (by decide) (by decide)
    (by decide)

/-- Witness for C1: every ray of `unitHitQuery` is sorted, and the
iff holds at the origin with cell size 2. -/
theorem doesVoxelIntersectObject_iff_witness :
    doesVoxelIntersectObject unitHitQuery 0 0 0 2 = true ↔
      ∃ p ∈ twelveRays 0 0 0 2, ∃ dist ∈ unitHitQuery p.1 p.2,
        dist ≤ 2 :=
  doesVoxelIntersectObject_iff unitHitQuery
    (fun _ _ => List.sorted_singleton 1) 0 0 0 2

/-- The flatMap of a list respects pointwise equality on its members. -/
lemma flatMap_congr_mem {α β : Type} {l : List α} {f g : α → List β}
    (h : ∀ a ∈ l, f a = g a) : l.flatMap f = l.flatMap g := by
  induction l with
  | nil => rfl
  | cons a t ih =>
    simp only [List.flatMap_cons]
    rw [h a (List.mem_cons_self a t),
      ih (fun b hb => h b (List.mem_cons_of_mem a hb))]

/-- Emitting a singleton for each passing element of a mapped list is
filtering then mapping. -/
lemma flatMap_ite_level1 {α β γ : Type} (l : List α) (f : α → β)
    (p : β → Bool) (v : β → γ) :
    (l.flatMap fun a => if p (f a) then [v (f a)] else []) =
      ((l.map f).filter p).map v := by
  induction l with
  | nil => rfl
  | cons a t ih =>
    simp only [List.flatMap_cons, List.map_cons, List.filter_cons]
    cases hpa : p (f a) <;> simp [hpa, ih]

/-- Two-level version of `flatMap_ite_level1`. -/
lemma flatMap_ite_level2 {α₁ α₂ β γ : Type} (l₁ : List α₁)
    (l₂ : List α₂) (f : α₁ → α₂ → β) (p : β → Bool) (v : β → γ) :
    (l₁.flatMap fun a => l₂.flatMap fun b =>
        if p (f a b) then [v (f a b)] else []) =
      (((l₁.map fun a => l₂.map (f a)).flatten).filter p).map v := by
  induction l₁ with
  | nil => rfl
  | cons a t ih =>
    simp only [List.flatMap_cons, List.map_cons, List.flatten_cons,
      List.filter_append, List.map_append]
    rw [flatMap_ite_level1 l₂ (f a) p v, ih]

/-- Three-level version of `flatMap_ite_level1`, matching the loop
nest of `drawGrid` over the nested grid structure. -/
lemma flatMap_ite_level3 {α₁ α₂ α₃ β γ : Type} (l₁ : List α₁)
    (l₂ : List α₂) (l₃ : List α₃) (f : α₁ → α₂ → α₃ → β)
    (p : β → Bool) (v : β → γ) :
    (l₁.flatMap fun a => l₂.flatMap fun b => l₃.flatMap fun c =>
        if p (f a b c) then [v (f a b c)] else []) =
      ((((l₁.map fun a => l₂.map fun b => l₃.map
          (f a b)).flatten.flatten).filter p).map v) := by
  induction l₁ with
  | nil => rfl
  | cons a t ih =>
    simp only [List.flatMap_cons, List.map_cons, List.flatten_cons,
      List.flatten_append, List.filter_append, List.map_append]
    rw [flatMap_ite_level2 l₂ l₃ (f a) p v, ih]

/-- Applying `drawGrid` to a dense nested grid of shape
`(sx+1) × (sy+1) × (sz+1)` renders the filtered, mapped cell list. -/
lemma drawGrid_general (vpu : ℚ) (sx sy sz m : ℕ)
    (F : ℕ → ℕ → ℕ → Cell) :
    drawGrid vpu sx sy sz
        ((List.range (sx + 1)).map fun i =>
          (List.range (sy + 1)).map fun j =>
            (List.range (sz + 1)).map (F i j)) m =
      (((((List.range (sx + 1)).map fun i =>
          (List.range (sy + 1)).map fun j =>
            (List.range (sz + 1)).map (F i j)).flatten.flatten).filter
          (fun c => c.value)).map
        (fun c => ({ edge := 1 / vpu, x := c.x, y := c.y, z := c.z,
                     material := m } : Voxel))) := by
  unfold drawGrid
  simp only [loopCount_natCast]
  trans ((List.range (sx + 1)).flatMap fun i =>
    (List.range (sy + 1)).flatMap fun j =>
      (List.range (sz + 1)).flatMap fun k =>
        if (F i j k).value then
          [({ edge := 1 / vpu, x := (F i j k).x, y := (F i j k).y,
              z := (F i j k).z, material := m } : Voxel)]
        else [])
  · apply flatMap_congr_mem
    intro i hi
    apply flatMap_congr_mem
    intro j hj
    apply flatMap_congr_mem
    intro k hk
    rw [List.mem_range] at hi hj hk
    simp only [getD_map_range _ _ _ _ hi, getD_map_range _ _ _ _ hj,
      getD_map_range _ _ _ _ hk]
  · exact flatMap_ite_level3 (List.range (sx + 1)) (List.range (sy + 1))
      (List.range (sz + 1)) F (fun c => c.value)
      (fun c => ({ edge := 1 / vpu, x := c.x, y := c.y, z := c.z,
                   material := m } : Voxel))

/-- Claim C7: The voxel renderer adds exactly one cube mesh per occupied
cell and none for unoccupied cells: applied to the grid builder's
output it returns precisely the list of occupied cells, each turned
into one voxel of edge `1/voxelsPerUnit` positioned at that cell's
stored coordinates, all carrying the single shared material. -/
theorem drawGrid_renders_occupied (raycast : RayQuery) (vpu : ℚ)
    (sx sy sz m : ℕ) :
    drawGrid vpu sx sy sz (calculateGrid raycast vpu sx sy sz) m =
      (((calculateGrid raycast vpu sx sy sz).flatten.flatten).filter
          (fun c => c.value)).map
        (fun c => ({ edge := 1 / vpu, x := c.x, y := c.y, z := c.z,
                     material := m } : Voxel)) := by
  have h : calculateGrid raycast vpu sx sy sz =
      (List.range (sx + 1)).map fun i =>
        (List.range (sy + 1)).map fun j =>
          (List.range (sz + 1)).map
            ((fun i j k : ℕ =>
              ({ value := doesVoxelIntersectObject raycast
                           (calculateCoordinates vpu (i : ℚ) (sx : ℚ))
                           (calculateCoordinates vpu (j : ℚ) (sy : ℚ))
                           (calculateCoordinates vpu (k : ℚ) (sz : ℚ)) (1 / vpu),
                 x := calculateCoordinates vpu (i : ℚ) (sx : ℚ),
                 y := calculateCoordinates vpu (j : ℚ) (sy : ℚ),
                 z := calculateCoordinates vpu (k : ℚ) (sz : ℚ) } : Cell))
              i j) := by
    simp only [calculateGrid, loopCount_natCast]
  rw [h]
  exact drawGrid_general vpu sx sy sz m _

/-- A direct child of the scene at the start of a `voxelize()` pass:
the hemisphere light added by `init()`, the loaded source object (a
gltf `Group`, whose `isMesh` is falsy), or a voxel mesh left over from
a previous pass (a `THREE.Mesh`, whose `isMesh` is true). -/
inductive SceneNode where
  | light : SceneNode
  | sourceObject : SceneNode
  | voxelMesh (id : ℕ) : SceneNode
deriving DecidableEq, Repr

/-- The `child.isMesh` test of `clearScene`: true exactly for
`THREE.Mesh` nodes (the voxel meshes); the light and the gltf `Group`
holding the source object are not meshes. -/
def SceneNode.isMesh : SceneNode → Bool
  | .voxelMesh _ => true
  | _ => false

/-- The function `clearScene()`: iterates a copy of the scene's direct
children and, for every child whose `isMesh` is set, removes it from
the scene and disposes its geometry and material.  Returns the
remaining children and the list of children whose resources were
disposed.  Non-mesh children (the light, the source object if still
attached) are untouched. -/
def clearScene (children : List SceneNode) :
    List SceneNode × List SceneNode :=
  (children.filter (fun c => !c.isMesh),
   children.filter (fun c => c.isMesh))

/-- The observable steps of one `voxelize()` pass, in program order:
computing the dimensions (`getDimensions`), one occupancy sample per
grid cell (the `doesVoxelIntersectObject` call of `calculateGrid`),
capturing the material (`currentObject.traverse` with `clone()`),
removing a named node from the scene (`scene.remove`, applied to the
source object in `voxelize` and to each leftover mesh in
`clearScene`), disposing a named node's geometry and material (the
`dispose()` calls of `clearScene`, which visits only mesh nodes still
among the scene's direct children — never the already-removed source
object), and adding one voxel mesh per occupied cell
(`scene.add(voxel)` in `drawGrid`). -/
inductive Event where
  | computeDimensions : Event
  | sample (i j k : ℕ) : Event
  | captureMaterial : Event
  | removeFromScene (n : SceneNode) : Event
  | dispose (n : SceneNode) : Event
  | render (i j k : ℕ) : Event
deriving DecidableEq, Repr

/-- The occupancy-sampling events issued by `calculateGrid`, one per
iteration of its triple loop, in loop order. -/
def calculateGridEvents (sizeX sizeY sizeZ : ℚ) : List Event :=
  (List.range (loopCount sizeX)).flatMap fun i =>
    (List.range (loopCount sizeY)).flatMap fun j =>
      (List.range (loopCount sizeZ)).map fun k => Event.sample i j k

/-- The scene-mutation events issued by `clearScene`: for each mesh
child, in order, a removal and then the disposal of its geometry and
material. -/
def clearSceneEvents (children : List SceneNode) : List Event :=
  (clearScene children).2.flatMap fun c =>
    [Event.removeFromScene c, Event.dispose c]

/-- The scene-mutation events issued by `drawGrid`, one per occupied
cell, in loop order. -/
def drawGridEvents (sizeX sizeY sizeZ : ℚ)
    (grid : List (List (List Cell))) : List Event :=
  (List.range (loopCount sizeX)).flatMap fun i =>
    (List.range (loopCount sizeY)).flatMap fun j =>
      (List.range (loopCount sizeZ)).flatMap fun k =>
        if (((grid.getD i []).getD j []).getD k defaultCell).value then
          [Event.render i j k]
        else []

/-- The full event trace of one `voxelize()` pass over a scene whose
direct children are `children`, following the statement order of the
source: dimensions, grid computation (one sample per cell), material
capture, removal of the source object, the `clearScene` sweep over the
remaining children, then rendering. -/
def voxelizeEvents (raycast : RayQuery) (voxelsPerUnit : ℚ)
    (boundingBoxSize : Vector3) (children : List SceneNode) :
    List Event :=
  let dimensions := getDimensions boundingBoxSize
  let sizeX : ℚ := dimensions.x * voxelsPerUnit
  let sizeY : ℚ := dimensions.y * voxelsPerUnit
  let sizeZ : ℚ := dimensions.z * voxelsPerUnit
  Event.computeDimensions ::
    (calculateGridEvents sizeX sizeY sizeZ ++
      [Event.captureMaterial,
        Event.removeFromScene SceneNode.sourceObject] ++
      clearSceneEvents (children.erase SceneNode.sourceObject) ++
      drawGridEvents sizeX sizeY sizeZ
        (calculateGrid raycast voxelsPerUnit sizeX sizeY sizeZ))

/-- Sampling events are never disposal events. -/
lemma dispose_not_mem_calculateGridEvents (n : SceneNode)
    (sx sy sz : ℚ) :
    Event.dispose n ∉ calculateGridEvents sx sy sz := by
  intro h
  simp only [calculateGridEvents, List.mem_flatMap, List.mem_map] at h
  obtain ⟨i, _, j, _, k, _, hh⟩ := h
  exact Event.noConfusion hh

/-- Rendering events are never disposal events. -/
lemma dispose_not_mem_drawGridEvents (n : SceneNode) (sx sy sz : ℚ)
    (grid : List (List (List Cell))) :
    Event.dispose n ∉ drawGridEvents sx sy sz grid := by
  intro h
  simp only [drawGridEvents, List.mem_flatMap] at h
  obtain ⟨i, _, j, _, k, _, hh⟩ := h
  split at hh
  · simp at hh
  · simp at hh

/-- A render event for an in-range occupied cell is in the renderer's
event list. -/
lemma render_mem_drawGridEvents (sx sy sz : ℚ)
    (grid : List (List (List Cell))) (i j k : ℕ)
    (hi : i < loopCount sx) (hj : j < loopCount sy)
    (hk : k < loopCount sz)
    (hv : ((((grid.getD i []).getD j []).getD k defaultCell).value)
      = true) :
    Event.render i j k ∈ drawGridEvents sx sy sz grid := by
  simp only [drawGridEvents, List.mem_flatMap]
  refine ⟨i, List.mem_range.mpr hi, j, List.mem_range.mpr hj, k,
    List.mem_range.mpr hk, ?_⟩
  rw [hv]
  simp

/-- Claim C6, counterexample: the claim as stated is false of the
code, because the source object's geometry and material are never
released.  In a concrete pass (density 1, unit bounding box, a scene
holding the light and the source object, every ray hitting at
distance 1) the renderer runs — the voxel mesh for cell `(0,0,0)` is
added — yet no disposal of the source object's resources occurs
anywhere in the trace: `scene.remove(currentObject)` precedes
`clearScene()`, and `clearScene` disposes only mesh nodes still among
the scene's direct children. -/
theorem voxelize_renders_without_source_disposal :
    Event.dispose SceneNode.sourceObject ∉
      voxelizeEvents unitHitQuery 1 ⟨1, 1, 1⟩
        [SceneNode.light, SceneNode.sourceObject] ∧
    Event.render 0 0 0 ∈
      voxelizeEvents unitHitQuery 1 ⟨1, 1, 1⟩
        [SceneNode.light, SceneNode.sourceObject] := by
  constructor
  · intro hmem
    rcases List.mem_cons.mp hmem with h | h
    · exact Event.noConfusion h
    rcases List.mem_append.mp h with h | h
    swap
    · exact dispose_not_mem_drawGridEvents _ _ _ _ _ h
    rcases List.mem_append.mp h with h | h
    swap
    · revert h
      decide
    rcases List.mem_append.mp h with h | h
    · exact dispose_not_mem_calculateGridEvents _ _ _ _ h
    · simp at h
  · have hsz : ((((getDimensions ⟨1, 1, 1⟩).x : ℚ)) * 1) = 1 := by
      norm_num [getDimensions]
    have hloop : loopCount 1 = 2 := by
      norm_num [loopCount]
      decide
    have hv : ((((calculateGrid unitHitQuery 1 1 1 1).getD 0
        []).getD 0 []).getD 0 defaultCell).value = true := by
      unfold calculateGrid
      rw [hloop]
      rw [getD_map_range _ _ _ _ (by norm_num)]
      rw [getD_map_range _ _ _ _ (by norm_num)]
      rw [getD_map_range _ _ _ _ (by norm_num)]
      norm_num [doesVoxelIntersectObject, firstHitWithin, unitHitQuery,
        leftFaceCorners]
    have hmem : Event.render 0 0 0 ∈
        drawGridEvents (((getDimensions ⟨1, 1, 1⟩).x : ℚ) * 1)
          (((getDimensions ⟨1, 1, 1⟩).y : ℚ) * 1)
          (((getDimensions ⟨1, 1, 1⟩).z : ℚ) * 1)
          (calculateGrid unitHitQuery 1
            (((getDimensions ⟨1, 1, 1⟩).x : ℚ) * 1)
            (((getDimensions ⟨1, 1, 1⟩).y : ℚ) * 1)
            (((getDimensions ⟨1, 1, 1⟩).z : ℚ) * 1)) := by
      rw [show (((getDimensions ⟨1, 1, 1⟩).x : ℚ) * 1) = 1 from hsz,
        show (((getDimensions ⟨1, 1, 1⟩).y : ℚ) * 1) = 1 from hsz,
        show (((getDimensions ⟨1, 1, 1⟩).z : ℚ) * 1) = 1 from hsz]
      exact render_mem_drawGridEvents 1 1 1 _ 0 0 0 (by rw [hloop]; omega)
        (by rw [hloop]; omega) (by rw [hloop]; omega) hv
    exact List.mem_cons_of_mem _ (List.mem_append_right _ hmem)

/-- Claim C6, amended: in every voxelize pass the trace splits as:
dimensioning, then only sampling events, then material capture, then
removal of the source object, then the `clearScene` sweep — which
removes and disposes only mesh nodes still directly in the scene
(leftover voxel meshes of a previous pass) and never disposes the
source object's geometry or material — then only rendering events.
Hence the grid is fully computed and the material captured before the
object is removed, rendering happens only after the removal and after
the sweep, and the object is never sampled after its removal. -/
theorem voxelize_event_order (raycast : RayQuery) (vpu : ℚ)
    (b : Vector3) (children : List SceneNode) :
    ∃ samples disposals renders : List Event,
      voxelizeEvents raycast vpu b children =
        Event.computeDimensions ::
          (samples ++
            [Event.captureMaterial,
              Event.removeFromScene SceneNode.sourceObject] ++
            disposals ++ renders) ∧
      (∀ e ∈ samples, ∃ i j k : ℕ, e = Event.sample i j k) ∧
      (∀ e ∈ disposals, ∃ n : SceneNode, n.isMesh = true ∧
        (e = Event.removeFromScene n ∨ e = Event.dispose n)) ∧
      Event.dispose SceneNode.sourceObject ∉
        voxelizeEvents raycast vpu b children ∧
      (∀ e ∈ renders, ∃ i j k : ℕ, e = Event.render i j k) := by
  have hsamp : ∀ e ∈ calculateGridEvents ((getDimensions b).x * vpu)
      ((getDimensions b).y * vpu) ((getDimensions b).z * vpu),
      ∃ i j k : ℕ, e = Event.sample i j k := by
    intro e he
    simp only [calculateGridEvents, List.mem_flatMap,
      List.mem_map] at he
    obtain ⟨i, _, j, _, k, _, rfl⟩ := he
    exact ⟨i, j, k, rfl⟩
  have hdisp : ∀ e ∈ clearSceneEvents
      (children.erase SceneNode.sourceObject),
      ∃ n : SceneNode, n.isMesh = true ∧
        (e = Event.removeFromScene n ∨ e = Event.dispose n) := by
    intro e he
    simp only [clearSceneEvents, clearScene, List.mem_flatMap] at he
    obtain ⟨c, hc, he⟩ := he
    refine ⟨c, (List.mem_filter.mp hc).2, ?_⟩
    simp only [List.mem_cons, List.mem_singleton] at he
    rcases he with he | he | he
    · exact Or.inl he
    · exact Or.inr he
    · exact absurd he (List.not_mem_nil e)
  have hrend : ∀ e ∈ drawGridEvents ((getDimensions b).x * vpu)
      ((getDimensions b).y * vpu) ((getDimensions b).z * vpu)
      (calculateGrid raycast vpu ((getDimensions b).x * vpu)
        ((getDimensions b).y * vpu) ((getDimensions b).z * vpu)),
      ∃ i j k : ℕ, e = Event.render i j k := by
    intro e he
    simp only [drawGridEvents, List.mem_flatMap] at he
    obtain ⟨i, _, j, _, k, _, he⟩ := he
    split at he
    · simp only [List.mem_singleton] at he
      exact ⟨i, j, k, he⟩
    · simp at he
  refine ⟨calculateGridEvents ((getDimensions b).x * vpu)
      ((getDimensions b).y * vpu) ((getDimensions b).z * vpu),
    clearSceneEvents (children.erase SceneNode.sourceObject),
    drawGridEvents ((getDimensions b).x * vpu)
      ((getDimensions b).y * vpu) ((getDimensions b).z * vpu)
      (calculateGrid raycast vpu ((getDimensions b).x * vpu)
        ((getDimensions b).y * vpu) ((getDimensions b).z * vpu)),
    rfl, hsamp, hdisp, ?_, hrend⟩
  intro hmem
  rcases List.mem_cons.mp hmem with h | h
  · exact Event.noConfusion h
  rcases List.mem_append.mp h with h | h
  swap
  · obtain ⟨i, j, k, hh⟩ := hrend _ h
    exact Event.noConfusion hh
  rcases List.mem_append.mp h with h | h
  swap
  · obtain ⟨n, hn, hh⟩ := hdisp _ h
    rcases hh with hh | hh
    · exact Event.noConfusion hh
    · injection hh with h2
      rw [← h2] at hn
      simp [SceneNode.isMesh] at hn
  rcases List.mem_append.mp h with h | h
  · obtain ⟨i, j, k, hh⟩ := hsamp _ h
    exact Event.noConfusion hh
  · simp at h

/-- Claim C8: The configured density is stored unvalidated, and with
density 0 the pipeline raises no error: `voxelize` completes normally,
producing a bounded one-cell grid (extent `0` per axis) and an empty
voxel list for a unit bounding box over an empty scene — no
"grid too large / invalid" condition exists anywhere in the code. -/
theorem voxelize_zero_density_completes :
    changeVoxelsPerUnit 0 = 0 ∧
    voxelize emptyQuery (changeVoxelsPerUnit 0) ⟨1, 1, 1⟩ 0 = [] ∧
    totalCells (calculateGrid emptyQuery 0 0 0 0) = 1 := by
  refine ⟨rfl, ?_, ?_⟩
  · show voxelize emptyQuery 0 ⟨1, 1, 1⟩ 0 = []
    unfold voxelize getDimensions
    norm_num
    decide
  · decide

/-- Claim C9: With a zero-volume bounding box the pipeline raises no
"empty geometry" error: `voxelize` completes normally at the default
density 6, building a one-cell grid (extent `0` per axis) and
returning an empty voxel list over an empty scene. -/
theorem voxelize_degenerate_box_completes :
    voxelize emptyQuery 6 ⟨0, 0, 0⟩ 0 = [] ∧
    totalCells (calculateGrid emptyQuery 6 0 0 0) = 1 := by
  refine ⟨?_, ?_⟩
  · unfold voxelize getDimensions
    norm_num
    decide
  · decide

end Voxelize
